import Mathlib

/-!
Shallow embedding of the JNI glue in
src/native/org_jitsi_webrtcvadwrapper_WebRTCVad.cpp together with a model of
the wrapped libfvad voice-activity-detection core.  The core library
(fvad_new, fvad_set_sample_rate, fvad_set_mode, fvad_process, fvad_free) is
not part of this source tree, so its behaviour is modelled from the
specification: supported sample rates, mode range, 10/20/30 ms frame-length
gating, the mode-thresholded raw verdict, and the hangover automaton with
states SILENCE / SPEECH / HOLDING(n).  The feature-extraction and
Gaussian-mixture likelihood computation is deliberately left abstract (the
spec calls its constants tunable and uninferrable): the classifier is
parametrised by a likelihood function `lik`, a mode-indexed threshold `thr`
and a mode-indexed hangover hold length `hmax`.
-/

/-- Modelled from the spec: the hangover mechanism is a finite automaton with
states SILENCE, SPEECH and HOLDING(n). -/
inductive HangState where
  | SILENCE : HangState
  | SPEECH : HangState
  | HOLDING : Nat → HangState
deriving DecidableEq, Repr

/-- Modelled from the spec: hangover transitions.  SILENCE→SPEECH on a raw
speech verdict; SPEECH→HOLDING(max) on a raw non-speech verdict;
HOLDING(n)→HOLDING(n-1) on raw non-speech while n>0, →SPEECH on raw speech
(any n); HOLDING(0)→SILENCE.  A raw speech verdict from SPEECH keeps SPEECH. -/
def hangStep (mx : Nat) : HangState → Bool → HangState
  | _, true => .SPEECH
  | .SILENCE, false => .SILENCE
  | .SPEECH, false => .HOLDING mx
  | .HOLDING 0, false => .SILENCE
  | .HOLDING (n + 1), false => .HOLDING n

/-- Modelled from the spec: the externally emitted decision is speech exactly
when the automaton is in SPEECH or in any HOLDING(n) state. -/
def hangEmit : HangState → Bool
  | .SILENCE => false
  | .SPEECH => true
  | .HOLDING _ => true

/-- Run the hangover automaton over a sequence of raw verdicts, emitting the
smoothed decision for every frame. -/
def hangRun (mx : Nat) : HangState → List Bool → List Bool
  | _, [] => []
  | s, v :: vs => hangEmit (hangStep mx s v) :: hangRun mx (hangStep mx s v) vs

/-- Modelled from the spec: a frame is valid when its length is 10, 20 or
30 ms of audio at the configured sample rate. -/
def validFrameLength (rate len : Nat) : Bool :=
  len == rate / 100 || len == 2 * (rate / 100) || len == 3 * (rate / 100)

/-- Modelled from the spec: the per-detector native state — configuration
(sample rate, aggressiveness mode) plus the hangover automaton state.  The
rolling sub-band statistics and mixture-model parameters are abstracted into
the likelihood parameter of `fvad_process`. -/
structure Fvad where
  sampleRate : Nat
  mode : Nat
  hang : HangState
deriving DecidableEq, Repr

/-- Modelled from the spec: fvad_new allocates a detector with default
configuration (8000 Hz, mode 0) and all state reset to the initial
non-speech values.  Allocation is modelled as always succeeding. -/
def fvad_new : Fvad :=
  { sampleRate := 8000, mode := 0, hang := .SILENCE }

/-- Modelled from the spec: fvad_set_sample_rate validates the rate against
the supported set {8000, 16000, 32000, 48000}; on success it stores the rate
and returns 0, on failure it leaves the state unchanged and returns -1. -/
def fvad_set_sample_rate (f : Fvad) (rate : Int) : Fvad × Int :=
  if rate = 8000 ∨ rate = 16000 ∨ rate = 32000 ∨ rate = 48000 then
    ({ f with sampleRate := rate.toNat }, 0)
  else
    (f, -1)

/-- Modelled from the spec: fvad_set_mode validates the mode against [0, 3];
on success it stores the mode and returns 0, on failure it leaves the state
unchanged and returns -1. -/
def fvad_set_mode (f : Fvad) (m : Int) : Fvad × Int :=
  if 0 ≤ m ∧ m ≤ 3 then
    ({ f with mode := m.toNat }, 0)
  else
    (f, -1)

/-- The C++ narrowing conversion `audioSample[i] = javaArray[i]` from a
32-bit jint to int16_t: reduction modulo 2^16 into [-32768, 32767]
(two's-complement wrap-around). -/
def toInt16 (x : Int) : Int :=
  (x + 32768) % 65536 - 32768

/-- The Java-side object as the native code sees it: its single relevant
field is the jlong `nativeVadPointer`, holding either a live native detector
or null (`none`). -/
structure WebRTCVad where
  nativeVadPointer : Option Fvad
deriving DecidableEq, Repr

/-- Modelled from the spec: fvad_free releases the pointee when the pointer
is non-null and is a no-op on a null pointer (C `free(NULL)` semantics; the
spec requires close to be a safe no-op when there is nothing to release).
The result is the list of released detector states. -/
def fvad_free (p : Option Fvad) : List Fvad :=
  p.toList

section VadCore

variable (lik : List Int → Nat) (thr hmax : Nat → Nat)

/-- Modelled from the spec: fvad_process checks that the frame length is a
supported duration for the configured rate; on mismatch it returns -1 and
leaves the state untouched.  On a valid frame it computes the raw verdict by
comparing the frame's likelihood `lik` against the mode-indexed threshold
`thr`, advances the hangover automaton (hold length `hmax` of the mode), and
returns 1 when the smoothed decision is speech, 0 otherwise. -/
def fvad_process (f : Fvad) (frame : List Int) : Int × Fvad :=
  if validFrameLength f.sampleRate frame.length then
    let raw := decide (thr f.mode < lik frame)
    let h := hangStep (hmax f.mode) f.hang raw
    (if hangEmit h then 1 else 0, { f with hang := h })
  else
    (-1, f)

/-- Embedding of Java_org_jitsi_webrtcvadwrapper_WebRTCVad_nativeOpen
(source lines 52-66): allocate with fvad_new, call fvad_set_sample_rate and
fvad_set_mode discarding both return codes, and store the pointer in the
object's field unconditionally.  The second component is the list of
detector states released during the call (none). -/
def nativeOpen (thisObj : WebRTCVad) (sampleRate mode : Int) : WebRTCVad × List Fvad :=
  let vadPtr0 := fvad_new
  let vadPtr1 := (fvad_set_sample_rate vadPtr0 sampleRate).1
  let vadPtr2 := (fvad_set_mode vadPtr1 mode).1
  ({ nativeVadPointer := some vadPtr2 }, [])

/-- Embedding of Java_org_jitsi_webrtcvadwrapper_WebRTCVad_nativeClose
(source lines 68-80): read the stored pointer, fvad_free it, and null the
field.  The second component is the list of detector states released. -/
def nativeClose (thisObj : WebRTCVad) : WebRTCVad × List Fvad :=
  ({ nativeVadPointer := none }, fvad_free thisObj.nativeVadPointer)

/-- Embedding of Java_org_jitsi_webrtcvadwrapper_WebRTCVad_nativeIsOpen
(source lines 82-93): true exactly when the stored pointer is non-null. -/
def nativeIsOpen (thisObj : WebRTCVad) : Bool :=
  thisObj.nativeVadPointer.isSome

/-- Embedding of Java_org_jitsi_webrtcvadwrapper_WebRTCVad_nativeIsSpeech
(source lines 95-115): copy the jint array into an int16_t buffer by the
narrowing conversion `toInt16`, read the stored pointer with no null check,
and call fvad_process on it.  When the stored pointer is null the call hands
a null instance to fvad_process, which is outside the native library's
contract: that case has no defined outcome and is modelled as `none`.
Otherwise the result code and the updated object are returned. -/
def nativeIsSpeech (thisObj : WebRTCVad) (javaAudioSample : List Int) :
    Option (Int × WebRTCVad) :=
  let audioSample := javaAudioSample.map toInt16
  match thisObj.nativeVadPointer with
  | some vadPtr =>
      let r := fvad_process lik thr hmax vadPtr audioSample
      some (r.1, { nativeVadPointer := some r.2 })
  | none => none

/-- Iterate fvad_process over a list of frames, collecting the result codes
and the final state. -/
def runVad : Fvad → List (List Int) → List Int × Fvad
  | f, [] => ([], f)
  | f, fr :: frs =>
      let r := fvad_process lik thr hmax f fr
      let rest := runVad r.2 frs
      (r.1 :: rest.1, rest.2)

/-- Iterate nativeIsSpeech over a list of frames, collecting the result
codes and the final object; `none` as soon as one call has no defined
outcome. -/
def runIsSpeech : WebRTCVad → List (List Int) → Option (List Int × WebRTCVad)
  | obj, [] => some ([], obj)
  | obj, fr :: frs =>
      match nativeIsSpeech lik thr hmax obj fr with
      | none => none
      | some (r, obj2) =>
          match runIsSpeech obj2 frs with
          | none => none
          | some (rs, objFin) => some (r :: rs, objFin)

end VadCore

/-- Number of frames classified as speech (result code 1) in a result list. -/
def countSpeech : List Int → Nat
  | [] => 0
  | r :: rs => (if r = 1 then 1 else 0) + countSpeech rs

/-- The sample rate stored by nativeOpen: the requested rate when it is
supported, otherwise the fvad_new default 8000. -/
def openedRate (rate : Int) : Nat :=
  if rate = 8000 ∨ rate = 16000 ∨ rate = 32000 ∨ rate = 48000 then rate.toNat else 8000

/-- The mode stored by nativeOpen: the requested mode when it is in [0, 3],
otherwise the fvad_new default 0. -/
def openedMode (m : Int) : Nat :=
  if 0 ≤ m ∧ m ≤ 3 then m.toNat else 0

/-- Order on hangover states: SILENCE below everything, HOLDING(n) ordered
by the counter and below SPEECH. -/
def stateLE : HangState → HangState → Prop
  | .SILENCE, _ => True
  | .HOLDING n, .HOLDING m => n ≤ m
  | .HOLDING _, .SPEECH => True
  | .SPEECH, .SPEECH => True
  | _, _ => False

/-- Invariant: a HOLDING counter never exceeds the configured hold length. -/
def stateOk (mx : Nat) : HangState → Prop
  | .HOLDING n => n ≤ mx
  | _ => True

theorem nativeOpen_eq (thisObj : WebRTCVad) (rate m : Int) :
    (nativeOpen thisObj rate m).1 =
      { nativeVadPointer :=
          some { sampleRate := openedRate rate, mode := openedMode m, hang := .SILENCE } } := by
  by_cases hr : rate = 8000 ∨ rate = 16000 ∨ rate = 32000 ∨ rate = 48000 <;>
    by_cases hm : 0 ≤ m ∧ m ≤ 3 <;>
      simp [nativeOpen, fvad_set_sample_rate, fvad_set_mode, fvad_new,
        openedRate, openedMode, hr, hm]

/-- Claim C1 counterexample: opening with unsupported sampleRate 44100 and
out-of-range mode 7 does not fail — no error is reported (nothing is ever
released or signalled), the stored handle is live, and the resulting
detector is usable: a classify call on it returns a defined result. -/
theorem vad_C1_counterexample :
    nativeIsOpen (nativeOpen { nativeVadPointer := none } 44100 7).1 = true ∧
    (nativeOpen { nativeVadPointer := none } 44100 7).2 = [] ∧
    (nativeIsSpeech (fun fr => fr.length) (fun m => m) (fun _ => 4)
        (nativeOpen { nativeVadPointer := none } 44100 7).1
        (List.replicate 80 0)).isSome = true := by
  decide

/-- Claim C1 (amended): nativeOpen performs no validation and cannot fail.
On any call with an unsupported sampleRate or an out-of-range mode (or
both), the native setters reject the invalid parameter internally and
nativeOpen ignores their error codes: each rejected parameter keeps its
fvad_new default (8000 Hz, mode 0), each valid parameter is stored, nothing
is released or signalled, and a live handle is stored unconditionally, so
the object is open afterwards. -/
theorem vad_C1 (thisObj : WebRTCVad) (sampleRate mode : Int)
    (h : ¬ (sampleRate = 8000 ∨ sampleRate = 16000 ∨ sampleRate = 32000 ∨ sampleRate = 48000) ∨
      ¬ (0 ≤ mode ∧ mode ≤ 3)) :
    (nativeOpen thisObj sampleRate mode).1 =
      { nativeVadPointer :=
          some { sampleRate := openedRate sampleRate, mode := openedMode mode,
                 hang := .SILENCE } } ∧
    (nativeOpen thisObj sampleRate mode).2 = [] ∧
    nativeIsOpen (nativeOpen thisObj sampleRate mode).1 = true ∧
    (¬ (sampleRate = 8000 ∨ sampleRate = 16000 ∨ sampleRate = 32000 ∨ sampleRate = 48000) →
      openedRate sampleRate = 8000) ∧
    (¬ (0 ≤ mode ∧ mode ≤ 3) → openedMode mode = 0) := by
  refine ⟨nativeOpen_eq thisObj sampleRate mode, rfl, rfl, ?_, ?_⟩
  · intro hr
    unfold openedRate
    rw [if_neg hr]
  · intro hm
    unfold openedMode
    rw [if_neg hm]

/-- Witness for C1 at the mixed input sampleRate 44100 (unsupported), mode 2
(valid): the handle is stored, the rejected rate falls back to 8000 and the
valid mode 2 is kept. -/
theorem vad_C1_witness :
    (nativeOpen { nativeVadPointer := none } 44100 2).1 =
      { nativeVadPointer :=
          some { sampleRate := openedRate 44100, mode := openedMode 2,
                 hang := .SILENCE } } ∧
    (nativeOpen { nativeVadPointer := none } 44100 2).2 = [] ∧
    nativeIsOpen (nativeOpen { nativeVadPointer := none } 44100 2).1 = true ∧
    (¬ ((44100 : Int) = 8000 ∨ (44100 : Int) = 16000 ∨ (44100 : Int) = 32000 ∨
        (44100 : Int) = 48000) → openedRate 44100 = 8000) ∧
    (¬ ((0 : Int) ≤ 2 ∧ (2 : Int) ≤ 3) → openedMode 2 = 0) :=
  vad_C1 { nativeVadPointer := none } 44100 2 (Or.inl (by decide))

/-- Claim C2: on an open detector, a frame whose length matches no supported
duration for the configured rate makes classify return the error code -1
(surfaced to the binding as FrameSizeError), which is distinct from both
decisions, and the object — in particular the native detector state — is
returned unchanged. -/
theorem vad_C2 (lik : List Int → Nat) (thr hmax : Nat → Nat) (f : Fvad)
    (samples : List Int)
    (hlen : validFrameLength f.sampleRate samples.length = false) :
    nativeIsSpeech lik thr hmax { nativeVadPointer := some f } samples =
      some (-1, { nativeVadPointer := some f }) ∧
    (-1 : Int) ≠ 0 ∧ (-1 : Int) ≠ 1 := by
  refine ⟨?_, by decide, by decide⟩
  simp [nativeIsSpeech, fvad_process, hlen]

/-- Witness for C2: a 5-sample frame at the default 8000 Hz rate. -/
theorem vad_C2_witness :
    nativeIsSpeech (fun fr => fr.length) (fun m => m) (fun _ => 4)
        { nativeVadPointer := some fvad_new } (List.replicate 5 0) =
      some (-1, { nativeVadPointer := some fvad_new }) ∧
    (-1 : Int) ≠ 0 ∧ (-1 : Int) ≠ 1 :=
  vad_C2 (fun fr => fr.length) (fun m => m) (fun _ => 4) fvad_new
    (List.replicate 5 0) (by decide)

/-- Claim C3 counterexample: classify on a never-opened (null-handle) object
does not produce any reported error result: the call passes the null handle
straight to fvad_process, which has no defined outcome there — so in
particular no NotOpenError is reported. -/
theorem vad_C3_counterexample :
    nativeIsSpeech (fun fr => fr.length) (fun m => m) (fun _ => 4)
      { nativeVadPointer := none } (List.replicate 80 0) = none := rfl

/-- Claim C3 (amended): invoking classify on a closed or never-opened
detector performs no handle check: the null handle is handed to the native
fvad_process, whose behaviour on a null instance is undefined, and no
NotOpenError (indeed no defined result at all) is reported. -/
theorem vad_C3 (lik : List Int → Nat) (thr hmax : Nat → Nat) (samples : List Int) :
    nativeIsSpeech lik thr hmax { nativeVadPointer := none } samples = none := rfl

/-- Claim C4: double close is safe.  The second close of a close–close
sequence releases nothing (the field was nulled by the first close, and
freeing a null pointer is a no-op) and leaves the object exactly as the
first close left it; a single close of an open detector releases its one
native state exactly once. -/
theorem vad_C4 (thisObj : WebRTCVad) (f : Fvad) :
    (nativeClose (nativeClose thisObj).1).1 = (nativeClose thisObj).1 ∧
    (nativeClose (nativeClose thisObj).1).2 = [] ∧
    (nativeClose { nativeVadPointer := some f }).2 = [f] := ⟨rfl, rfl, rfl⟩

/-- Claim C5: nativeIsOpen tracks the lifecycle — true right after
nativeOpen stores the handle, still true after a classify call (which never
nulls the field), and false after nativeClose nulls the field. -/
theorem vad_C5 (lik : List Int → Nat) (thr hmax : Nat → Nat)
    (thisObj : WebRTCVad) (sampleRate mode : Int) (frame : List Int) :
    nativeIsOpen (nativeOpen thisObj sampleRate mode).1 = true ∧
    (∃ r obj2,
      nativeIsSpeech lik thr hmax (nativeOpen thisObj sampleRate mode).1 frame =
        some (r, obj2) ∧ nativeIsOpen obj2 = true) ∧
    nativeIsOpen (nativeClose (nativeOpen thisObj sampleRate mode).1).1 = false := by
  exact ⟨rfl, ⟨_, _, rfl, rfl⟩, rfl⟩

/-- Claim C6: determinism across instances — two objects opened with the
same (sampleRate, mode) and fed the same frame sequence emit the same
decision sequence (there is no state beyond the per-object handle). -/
theorem vad_C6 (lik : List Int → Nat) (thr hmax : Nat → Nat)
    (obj1 obj2 : WebRTCVad) (sampleRate mode : Int) (frames : List (List Int)) :
    (runIsSpeech lik thr hmax (nativeOpen obj1 sampleRate mode).1 frames).map
        (fun p => p.1) =
    (runIsSpeech lik thr hmax (nativeOpen obj2 sampleRate mode).1 frames).map
        (fun p => p.1) := rfl

/-- Claim C9: the jint to int16_t copy loop in nativeIsSpeech reduces every
sample modulo 2^16 into [-32768, 32767] — congruent to the original, never
rejected and not clamped (40000 wraps to -25536, and -40000 to 25536, not to
a saturation bound) — and classify hands exactly the toInt16-image of the
input array to fvad_process. -/
theorem vad_C9 :
    (∀ x : Int, toInt16 x % 65536 = x % 65536 ∧ -32768 ≤ toInt16 x ∧ toInt16 x ≤ 32767) ∧
    toInt16 40000 = -25536 ∧ toInt16 (-40000) = 25536 ∧
    (∀ (lik : List Int → Nat) (thr hmax : Nat → Nat) (f : Fvad) (samples : List Int),
      nativeIsSpeech lik thr hmax { nativeVadPointer := some f } samples =
        some ((fvad_process lik thr hmax f (samples.map toInt16)).1,
          { nativeVadPointer := some (fvad_process lik thr hmax f (samples.map toInt16)).2 })) := by
  refine ⟨?_, by decide, by decide, fun lik thr hmax f samples => rfl⟩
  intro x
  unfold toInt16
  omega

/-- Claim C10: nativeOpen unconditionally overwrites the stored handle — the
resulting object does not depend on the previous handle (even an open one),
nativeIsOpen is true afterwards, and nothing is released during the call. -/
theorem vad_C10 (thisObj otherObj : WebRTCVad) (sampleRate mode : Int) :
    nativeIsOpen (nativeOpen thisObj sampleRate mode).1 = true ∧
    (nativeOpen thisObj sampleRate mode).2 = [] ∧
    (nativeOpen thisObj sampleRate mode).1 = (nativeOpen otherObj sampleRate mode).1 :=
  ⟨rfl, rfl, rfl⟩

theorem hangRun_speech_replicate (mx : Nat) :
    ∀ (k : Nat) (rest : List Bool),
      hangRun mx .SPEECH (List.replicate k true ++ rest) =
        List.replicate k true ++ hangRun mx .SPEECH rest := by
  intro k
  induction k with
  | zero => intro rest; simp
  | succ n ih =>
      intro rest
      simp only [List.replicate_succ, List.cons_append, hangRun, hangStep, hangEmit,
        List.append_eq]
      rw [ih]

theorem hangRun_holding_replicate (mx m n : Nat) :
    hangRun mx (.HOLDING n) (List.replicate m true) = List.replicate m true := by
  cases m with
  | zero => rfl
  | succ k =>
      have h := hangRun_speech_replicate mx k ([] : List Bool)
      simp only [List.replicate_succ, hangRun, hangStep, hangEmit]
      simpa [hangRun] using h

/-- Claim C7: hangover hysteresis.  Starting from SILENCE, a run of N ≥ 1
raw speech verdicts, one raw non-speech verdict, then M raw speech verdicts
yields an all-speech emitted decision sequence — the single intervening
non-speech verdict never drops the emitted decision, because the automaton
moves to HOLDING(max) and every HOLDING(n) state emits speech. -/
theorem vad_C7 (mx N M : Nat) (hN : 1 ≤ N) :
    hangRun mx .SILENCE (List.replicate N true ++ false :: List.replicate M true) =
      List.replicate (N + 1 + M) true ∧
    ∀ n, hangEmit (.HOLDING n) = true := by
  refine ⟨?_, fun n => rfl⟩
  obtain ⟨k, rfl⟩ : ∃ k, N = k + 1 := ⟨N - 1, by omega⟩
  simp only [List.replicate_succ, List.cons_append, hangRun, hangStep, hangEmit,
    List.append_eq]
  rw [hangRun_speech_replicate]
  simp only [hangRun, hangStep, hangEmit]
  rw [hangRun_holding_replicate]
  rw [List.eq_replicate_iff]
  constructor
  · simp
    omega
  · intro b hb
    simp at hb
    rcases hb with h | h | h | h <;> simp [h]

/-- Witness for C7: hold length 2, three speech frames, one dropout, four
speech frames — the emitted sequence is eight speech decisions. -/
theorem vad_C7_witness :
    hangRun 2 .SILENCE (List.replicate 3 true ++ false :: List.replicate 4 true) =
      List.replicate 8 true :=
  (vad_C7 2 3 4 (by decide)).1

theorem stateLE_speech (s : HangState) : stateLE s .SPEECH := by
  cases s <;> trivial

theorem hangEmit_mono (s1 s2 : HangState) (h : stateLE s1 s2)
    (he : hangEmit s1 = true) : hangEmit s2 = true := by
  cases s1 <;> cases s2 <;> simp_all [stateLE, hangEmit]

theorem stateOk_hangStep (mx : Nat) (s : HangState) (v : Bool)
    (h : stateOk mx s) : stateOk mx (hangStep mx s v) := by
  cases v with
  | true => cases s <;> simp [hangStep, stateOk]
  | false =>
      cases s with
      | SILENCE => simp [hangStep, stateOk]
      | SPEECH => simp [hangStep, stateOk]
      | HOLDING n =>
          cases n with
          | zero => simp [hangStep, stateOk]
          | succ k =>
              simp only [hangStep, stateOk] at h ⊢
              omega

theorem hangStep_mono (mx1 mx2 : Nat) (s1 s2 : HangState) (v1 v2 : Bool)
    (hmx : mx1 ≤ mx2) (hs : stateLE s1 s2) (hok : stateOk mx1 s1)
    (hv : v1 = true → v2 = true) :
    stateLE (hangStep mx1 s1 v1) (hangStep mx2 s2 v2) := by
  cases v1 with
  | true =>
      rw [hv rfl]
      cases s1 <;> cases s2 <;> simp [hangStep, stateLE]
  | false =>
      cases v2 with
      | true =>
          have h := stateLE_speech (hangStep mx1 s1 false)
          cases s2 <;> simpa [hangStep] using h
      | false =>
          cases s1 with
          | SILENCE => cases s2 <;> simp [hangStep, stateLE]
          | SPEECH => cases s2 <;> simp_all [stateLE, hangStep]
          | HOLDING n =>
              cases s2 with
              | SILENCE => simp_all [stateLE]
              | SPEECH =>
                  cases n with
                  | zero => simp [hangStep, stateLE]
                  | succ k =>
                      simp only [hangStep, stateLE, stateOk] at hok ⊢
                      omega
              | HOLDING m =>
                  cases n with
                  | zero => cases m <;> simp [hangStep, stateLE]
                  | succ k =>
                      cases m with
                      | zero => simp_all [stateLE]
                      | succ j =>
                          simp only [hangStep, stateLE] at hs ⊢
                          omega

theorem runIsSpeech_eq_runVad (lik : List Int → Nat) (thr hmax : Nat → Nat) :
    ∀ (frames : List (List Int)) (f : Fvad),
      runIsSpeech lik thr hmax { nativeVadPointer := some f } frames =
        some ((runVad lik thr hmax f (frames.map (List.map toInt16))).1,
          { nativeVadPointer :=
              some (runVad lik thr hmax f (frames.map (List.map toInt16))).2 }) := by
  intro frames
  induction frames with
  | nil => intro f; rfl
  | cons fr frs ih =>
      intro f
      simp only [runIsSpeech, nativeIsSpeech, List.map_cons, runVad, ih]

theorem runVad_mono (lik : List Int → Nat) (thr hmax : Nat → Nat)
    (m1 m2 : Nat) (hthr : thr m1 ≤ thr m2) (hmx : hmax m2 ≤ hmax m1) :
    ∀ (frames : List (List Int)) (rate : Nat) (s1 s2 : HangState),
      stateLE s2 s1 → stateOk (hmax m2) s2 → stateOk (hmax m1) s1 →
      countSpeech (runVad lik thr hmax ⟨rate, m2, s2⟩ frames).1 ≤
        countSpeech (runVad lik thr hmax ⟨rate, m1, s1⟩ frames).1 := by
  intro frames
  induction frames with
  | nil => intro rate s1 s2 _ _ _; simp [runVad, countSpeech]
  | cons fr frs ih =>
      intro rate s1 s2 hle hok2 hok1
      by_cases hv : validFrameLength rate fr.length = true
      · have hv12 : decide (thr m2 < lik fr) = true → decide (thr m1 < lik fr) = true := by
          simp only [decide_eq_true_eq]
          intro h
          exact lt_of_le_of_lt hthr h
        have hs' := hangStep_mono (hmax m2) (hmax m1) s2 s1
          (decide (thr m2 < lik fr)) (decide (thr m1 < lik fr)) hmx hle hok2 hv12
        have hok2' := stateOk_hangStep (hmax m2) s2 (decide (thr m2 < lik fr)) hok2
        have hok1' := stateOk_hangStep (hmax m1) s1 (decide (thr m1 < lik fr)) hok1
        have hrec := ih rate (hangStep (hmax m1) s1 (decide (thr m1 < lik fr)))
          (hangStep (hmax m2) s2 (decide (thr m2 < lik fr))) hs' hok2' hok1'
        simp only [runVad, fvad_process, hv, if_true, countSpeech]
        refine Nat.add_le_add ?_ hrec
        cases he2 : hangEmit (hangStep (hmax m2) s2 (decide (thr m2 < lik fr))) with
        | false => simp [he2]
        | true =>
            have he1 := hangEmit_mono _ _ hs' he2
            simp [he2, he1]
      · simp only [runVad, fvad_process, hv, if_false, Bool.false_eq_true, countSpeech]
        exact Nat.add_le_add (le_refl _) (ih rate s1 s2 hle hok2 hok1)

/-- Claim C8: mode monotonicity.  For any likelihood function, any monotone
mode-indexed threshold (the spec's "higher mode = more aggressive"), and any
hold length that does not grow with aggressiveness, two detectors opened
with the same sampleRate and valid modes m1 ≤ m2 and fed the same frame
sequence give the higher mode at most as many speech-labelled frames. -/
theorem vad_C8 (lik : List Int → Nat) (thr hmax : Nat → Nat)
    (hthr : Monotone thr) (hmx : Antitone hmax)
    (obj1 obj2 : WebRTCVad) (sampleRate m1 m2 : Int)
    (frames : List (List Int))
    (h0 : 0 ≤ m1) (h12 : m1 ≤ m2) (h3 : m2 ≤ 3) :
    ∃ out1 fin1 out2 fin2,
      runIsSpeech lik thr hmax (nativeOpen obj1 sampleRate m1).1 frames =
        some (out1, fin1) ∧
      runIsSpeech lik thr hmax (nativeOpen obj2 sampleRate m2).1 frames =
        some (out2, fin2) ∧
      countSpeech out2 ≤ countSpeech out1 := by
  rw [nativeOpen_eq, nativeOpen_eq, runIsSpeech_eq_runVad, runIsSpeech_eq_runVad]
  refine ⟨_, _, _, _, rfl, rfl, ?_⟩
  have hm1 : openedMode m1 = m1.toNat := by
    unfold openedMode
    rw [if_pos ⟨h0, le_trans h12 h3⟩]
  have hm2 : openedMode m2 = m2.toNat := by
    unfold openedMode
    rw [if_pos ⟨le_trans h0 h12, h3⟩]
  have hnat : m1.toNat ≤ m2.toNat := by omega
  rw [hm1, hm2]
  exact runVad_mono lik thr hmax m1.toNat m2.toNat (hthr hnat) (hmx hnat)
    (frames.map (List.map toInt16)) (openedRate sampleRate) .SILENCE .SILENCE
    trivial trivial trivial

/-- Witness for C8: identity threshold, hold length 4 - mode, modes 1 and 2
on one 10 ms frame at 8000 Hz. -/
theorem vad_C8_witness :
    ∃ out1 fin1 out2 fin2,
      runIsSpeech (fun fr => fr.length) (fun m => m) (fun m => 4 - m)
          (nativeOpen { nativeVadPointer := none } 8000 1).1 [List.replicate 80 0] =
        some (out1, fin1) ∧
      runIsSpeech (fun fr => fr.length) (fun m => m) (fun m => 4 - m)
          (nativeOpen { nativeVadPointer := none } 8000 2).1 [List.replicate 80 0] =
        some (out2, fin2) ∧
      countSpeech out2 ≤ countSpeech out1 :=
  vad_C8 (fun fr => fr.length) (fun m => m) (fun m => 4 - m)
    (fun _ _ h => h) (fun _ _ h => Nat.sub_le_sub_left h 4)
    { nativeVadPointer := none } { nativeVadPointer := none } 8000 1 2
    [List.replicate 80 0] (by decide) (by decide) (by decide)
